import Mathlib

set_option maxRecDepth 100000

/-!
Shallow embedding of the railway-to-tg webhook relay.

The repository contains two versions of the same single-file Express server:
`src/index.js` and an unnamed file `src/unnamed/part_000`.  Both are embedded
here, as namespaces `IndexJs` and `Part000`.  JavaScript-specific behaviour is
modelled explicitly:

* string-or-undefined values are `Option String`; `x || d` is `jsOr`,
  JavaScript truthiness of such a value is `truthy` (absent, `null` and the
  empty string are falsy);
* interpolating an absent value in a template literal renders the text
  "undefined" (`jsStr`);
* `statusEmojis[k]` is an own-property lookup in the object literal, embedded
  as an association-list lookup;
* the outbound Telegram transport is a parameter of type `Telegram` which may
  return an error, standing for a network failure, a rejected call or an
  invalid destination; `try`/`catch` is embedded as a `match` on the
  `Except` result;
* every handler returns the HTTP response together with the list of outbound
  send calls it performed, so that "no delivery attempt" is observable.

The emoji string literals and the literal pieces of the message templates are
copied byte-for-byte from the source files (the literals in `src/index.js` are
mojibake — UTF-8 read as Latin-1 and re-encoded — and one of them contains an
invisible soft hyphen, so they are reproduced exactly rather than retyped).
-/

/-- JavaScript truthiness of a string-or-undefined value: `undefined` and the
empty string are falsy, every other string is truthy. -/
def truthy : Option String → Bool
  | none => false
  | some s => !s.isEmpty

/-- Embedding of `x || d` where `x` is a string-or-undefined value:
the default is taken when `x` is absent or falsy (the empty string). -/
def jsOr (x : Option String) (d : String) : String :=
  match x with
  | none => d
  | some s => if s.isEmpty then d else s

/-- Interpolation of a string-or-undefined value in a template literal:
JavaScript renders `undefined` as the literal text "undefined". -/
def jsStr : Option String → String
  | none => "undefined"
  | some s => s

/-- The fields of the inbound webhook JSON body that the handlers read,
flattening the optional chains `project?.name`, `project?.id`,
`environment?.name`, `deployment?.creator?.name` and `deployment?.id`.
A field is `none` when it (or any parent object) is absent from the JSON. -/
structure Payload where
  type : Option String
  status : Option String
  projectName : Option String
  projectId : Option String
  environmentName : Option String
  creatorName : Option String
  deploymentId : Option String
deriving DecidableEq, Repr

/-- The JSON bodies the two servers respond with.  The dynamic fields of the
health and root bodies (timestamp, uptime, endpoint listing) are elided: no
claim depends on them, only on which body shape is returned. -/
inductive Body where
  | success
  | invalidPayload
  | internalError
  | methodNotAllowed
  | endpointNotFound
  | health
  | root
deriving DecidableEq, Repr

/-- An HTTP response: status code and JSON body. -/
structure Response where
  status : Nat
  body : Body
deriving DecidableEq, Repr

/-- One button of the inline keyboard attached to a Telegram message. -/
structure InlineButton where
  text : String
  url : String
deriving DecidableEq, Repr

/-- The options object passed to `bot.telegram.sendMessage`. -/
structure SendOptions where
  parseMode : String
  disableWebPagePreview : Bool
  replyMarkup : Option (List (List InlineButton))
deriving DecidableEq, Repr

/-- The outbound transport `bot.telegram.sendMessage(chatId, message, options)`.
It is a parameter of the embedding; an `Except.error` result stands for any
failure of the outbound call (network error, rejected call, invalid
destination). -/
def Telegram : Type := String → String → SendOptions → Except String Unit

/-- A record of one outbound delivery attempt made by a handler. -/
structure SendCall where
  message : String
  buttonText : Option String
  buttonUrl : Option String
deriving DecidableEq, Repr

/-- The function `sendMessage(message, buttonText = null, buttonUrl = null)`,
identical in both source files (lines 38–64 of each).  It builds the options object,
attaches a single-row single-button inline keyboard when both button fields
are truthy, awaits the transport inside `try`, and swallows any error in
`catch` (the error is only logged). -/
def sendMessage (tg : Telegram) (chatId message : String)
    (buttonText buttonUrl : Option String) : Except String Unit :=
  let base : SendOptions :=
    { parseMode := "HTML", disableWebPagePreview := true, replyMarkup := none }
  let options : SendOptions :=
    if truthy buttonText && truthy buttonUrl then
      { base with replyMarkup := some [[⟨buttonText.getD "", buttonUrl.getD ""⟩]] }
    else base
  match tg chatId message options with
  | .ok _ => .ok ()
  | .error _ => .ok ()

/-- Holds when `pat` occurs as a contiguous substring of `s` (on the
underlying character lists). -/
def strContains (s pat : String) : Prop := pat.data <:+: s.data

instance (s pat : String) : Decidable (strContains s pat) :=
  inferInstanceAs (Decidable (pat.data <:+: s.data))

theorem strContains_of_eq (s a pat b : String) (h : s = a ++ (pat ++ b)) :
    strContains s pat := by
  subst h
  exact ⟨a.data, b.data, by simp [String.data_append, List.append_assoc]⟩

/-- The strings in `ps` occur in `s` in this order, each one starting after
the end of the previous one. -/
def chainedInfixes : String → List String → Prop
  | _, [] => True
  | s, p :: ps => ∃ a b, s = a ++ (p ++ b) ∧ chainedInfixes b ps

theorem chainedInfixes_nil (s : String) : chainedInfixes s [] := trivial

theorem chainedInfixes_here (p b : String) (ps : List String)
    (h : chainedInfixes b ps) : chainedInfixes (p ++ b) (p :: ps) :=
  ⟨"", b, by apply String.ext; simp [String.data_append], h⟩

theorem chainedInfixes_skip (x s : String) (ps : List String)
    (h : chainedInfixes s ps) : chainedInfixes (x ++ s) ps := by
  cases ps with
  | nil => trivial
  | cons p t =>
    obtain ⟨a, b, hab, hrest⟩ := h
    exact ⟨x ++ a, b, by rw [hab, String.append_assoc], hrest⟩

/-- Every value of a concrete association list is a nonempty string; used for
the status→emoji tables. -/
theorem lookup_isEmpty_eq_false (k : String) (l : List (String × String))
    (hl : ∀ p ∈ l, p.2.isEmpty = false) :
    ∀ g, l.lookup k = some g → g.isEmpty = false := by
  induction l with
  | nil => intro g hg; simp [List.lookup] at hg
  | cons p t ih =>
    intro g hg
    rw [List.lookup] at hg
    split at hg
    · simp only [Option.some.injEq] at hg
      exact hg ▸ hl p (List.mem_cons_self p t)
    · exact ih (fun q hq => hl q (List.mem_cons_of_mem p hq)) g hg
namespace Part000

/-- The `statusEmojis` object literal of src/unnamed/part_000, values copied
byte-for-byte from the file. -/
def statusEmojis : List (String × String) := [
  ("SUCCESS", "✅"),
  ("BUILDING", "⚒️"),
  ("DEPLOYING", "🚀"),
  ("CRASHED", "❌"),
  ("FAILED", "💥"),
  ("QUEUED", "⏳"),
  ("REMOVED", "🗑️"),
  ("SKIPPED", "⏭️")]

/-- The fallback glyph in `statusEmojis[data.status] || ...`. -/
def defaultEmoji : String := "ℹ️"

/-- The literal pieces of the deployment message template literal of
src/unnamed/part_000, split at the interpolation sites, copied byte-for-byte. -/
def chunkTitle : String := "<b>🚂 Railway Deployment</b>\n\n<b>Project:</b> <code>"

def chunkAfterProject : String := "</code>\n"

def chunkStatusLabel : String := " <b>Status:</b> <code>"

def chunkEnv : String := "</code>\n🌳 <b>Environment:</b> <code>"

def chunkCreator : String := "</code>\n👨‍💻 <b>Creator:</b> <code>"

def chunkDeployId : String := "</code>\n🆔 <b>Deployment ID:</b> <code>"

def chunkTime : String := "</code>\n🕐 <b>Time:</b> <code>"

def chunkEnd : String := "</code>"

/-- The first line of the template (the message title line). -/
def titleLine : String := "<b>🚂 Railway Deployment</b>"

/-- Label substrings of the template lines (each `labelX` starts at the
newline that begins its line and ends at the closing tag of the label);
`lineHeadX` is the part of the line before the label (newline and the
decorative glyph).  All copied byte-for-byte from the template. -/
def labelProject : String := "\n<b>Project:</b>"

def labelStatus : String := " <b>Status:</b>"

def labelEnvironment : String := "\n🌳 <b>Environment:</b>"

def labelCreator : String := "\n👨‍💻 <b>Creator:</b>"

def labelDeployId : String := "\n🆔 <b>Deployment ID:</b>"

def labelTime : String := "\n🕐 <b>Time:</b>"

def lineHeadEnvironment : String := "\n🌳 "

def lineHeadCreator : String := "\n👨‍💻 "

def lineHeadDeployId : String := "\n🆔 "

def lineHeadTime : String := "\n🕐 "

end Part000

namespace IndexJs

/-- The `statusEmojis` object literal of src/index.js, values copied
byte-for-byte from the file. -/
def statusEmojis : List (String × String) := [
  ("SUCCESS", "âœ…"),
  ("BUILDING", "âš’ï¸"),
  ("DEPLOYING", "ğŸš€"),
  ("CRASHED", "âŒ"),
  ("FAILED", "ğŸ’¥"),
  ("QUEUED", "â³"),
  ("REMOVED", "ğŸ—‘ï¸"),
  ("REMOVING", "ğŸ”„"),
  ("SKIPPED", "â­ï¸"),
  ("INITIALIZED", "ğŸ¯"),
  ("WAITING", "â¸ï¸"),
  ("SLEEPING", "ğŸ˜´"),
  ("AWAITING_APPROVAL", "â°")]

/-- The fallback glyph in `statusEmojis[data.status] || ...`. -/
def defaultEmoji : String := "â„¹ï¸"

/-- The literal pieces of the deployment message template literal of
src/index.js, split at the interpolation sites, copied byte-for-byte. -/
def chunkTitle : String := "<b>ğŸš‚ Railway Deployment</b>\n\n<b>Project:</b> <code>"

def chunkAfterProject : String := "</code>\n"

def chunkStatusLabel : String := " <b>Status:</b> <code>"

def chunkEnv : String := "</code>\nğŸŒ³ <b>Environment:</b> <code>"

def chunkCreator : String := "</code>\nğŸ‘¨â€ğŸ’» <b>Creator:</b> <code>"

def chunkTime : String := "</code>\nğŸ• <b>Time:</b> <code>"

def chunkEnd : String := "</code>"

/-- The first line of the template (the message title line). -/
def titleLine : String := "<b>ğŸš‚ Railway Deployment</b>"

/-- Label substrings of the template lines (each `labelX` starts at the
newline that begins its line and ends at the closing tag of the label);
`lineHeadX` is the part of the line before the label (newline and the
decorative glyph).  All copied byte-for-byte from the template. -/
def labelProject : String := "\n<b>Project:</b>"

def labelStatus : String := " <b>Status:</b>"

def labelEnvironment : String := "\nğŸŒ³ <b>Environment:</b>"

def labelCreator : String := "\nğŸ‘¨â€ğŸ’» <b>Creator:</b>"

def labelTime : String := "\nğŸ• <b>Time:</b>"

def lineHeadEnvironment : String := "\nğŸŒ³ "

def lineHeadCreator : String := "\nğŸ‘¨â€ğŸ’» "

def lineHeadTime : String := "\nğŸ• "

end IndexJs
namespace Part000

/-- Embeds `const emoji = statusEmojis[data.status] || "ℹ️"` (own-property lookup,
absent status looks up `undefined` and falls back to the default). -/
def emojiOf (data : Payload) : String :=
  jsOr (data.status.bind (statusEmojis.lookup ·)) defaultEmoji

/-- Embeds `const projectName = data.project?.name || "Unknown Project"`. -/
def projectNameOf (data : Payload) : String :=
  jsOr data.projectName "Unknown Project"

/-- Embeds `const environment = data.environment?.name || "Unknown Environment"`. -/
def environmentOf (data : Payload) : String :=
  jsOr data.environmentName "Unknown Environment"

/-- Embeds `const creator = data.deployment?.creator?.name || "Unknown Creator"`. -/
def creatorOf (data : Payload) : String :=
  jsOr data.creatorName "Unknown Creator"

/-- Embeds `const deploymentId = data.deployment?.id || "Unknown"`. -/
def deploymentIdOf (data : Payload) : String :=
  jsOr data.deploymentId "Unknown"

/-- The function `formatDeploymentMessage(data)` of src/unnamed/part_000
(lines 79–95): the
template literal with the substituted values; `timestamp` is
`new Date().toLocaleString()`, passed in as `now`. -/
def formatDeploymentMessage (now : String) (data : Payload) : String :=
  chunkTitle ++ projectNameOf data ++ chunkAfterProject ++ emojiOf data ++
    chunkStatusLabel ++ jsStr data.status ++ chunkEnv ++ environmentOf data ++
    chunkCreator ++ creatorOf data ++ chunkDeployId ++ deploymentIdOf data ++
    chunkTime ++ now ++ chunkEnd

/-- The `app.post("/webhook", ...)` handler of src/unnamed/part_000 (lines
98–135).  Here `body` is `req.body` (`none` models an undefined body; with the
body-parser middleware an absent request body arrives as the empty object,
i.e. `some` of an all-`none` payload).  Returns the HTTP response and the
outbound send calls performed.  The surrounding `try`/`catch` maps an error
thrown by `await sendMessage` to a 500 response. -/
def webhookPost (tg : Telegram) (chatId now : String) (body : Option Payload) :
    Response × List SendCall :=
  match body with
  | none => (⟨400, .invalidPayload⟩, [])
  | some data =>
    if truthy data.type = false then
      (⟨400, .invalidPayload⟩, [])
    else if data.type = some "DEPLOY" then
      let message := formatDeploymentMessage now data
      let buttonUrl :=
        if truthy data.projectId then
          "https://railway.app/project/" ++ data.projectId.getD "" ++ "/deployments"
        else "https://railway.app"
      match sendMessage tg chatId message (some "View Project") (some buttonUrl) with
      | .ok _ => (⟨200, .success⟩, [⟨message, some "View Project", some buttonUrl⟩])
      | .error _ => (⟨500, .internalError⟩, [⟨message, some "View Project", some buttonUrl⟩])
    else
      (⟨200, .success⟩, [])

/-- Route dispatch of src/unnamed/part_000 in registration order:
`POST /webhook`, `GET /health`, `GET /`, `GET /webhook` (the explicit 405
route, lines 158–163), then the catch-all 404 handler.  Express `app.get`
also serves HEAD requests with the same handler. -/
def handle (tg : Telegram) (chatId now : String) (method path : String)
    (body : Option Payload) : Response × List SendCall :=
  if method = "POST" ∧ path = "/webhook" then
    webhookPost tg chatId now body
  else if (method = "GET" ∨ method = "HEAD") ∧ path = "/health" then
    (⟨200, .health⟩, [])
  else if (method = "GET" ∨ method = "HEAD") ∧ path = "/" then
    (⟨200, .root⟩, [])
  else if (method = "GET" ∨ method = "HEAD") ∧ path = "/webhook" then
    (⟨405, .methodNotAllowed⟩, [])
  else
    (⟨404, .endpointNotFound⟩, [])

end Part000

namespace IndexJs

/-- Embeds `const emoji = statusEmojis[data.status] || "â„¹ï¸"` of src/index.js. -/
def emojiOf (data : Payload) : String :=
  jsOr (data.status.bind (statusEmojis.lookup ·)) defaultEmoji

/-- The deployment message built inline in the DEPLOY branch of the
`app.post("/webhook", ...)` handler of src/index.js (lines 92–98).  Note:
no Deployment ID line, and the plain placeholder "Unknown" for every
optional field. -/
def deployMessage (now : String) (data : Payload) : String :=
  chunkTitle ++ jsOr data.projectName "Unknown" ++ chunkAfterProject ++
    emojiOf data ++ chunkStatusLabel ++ jsStr data.status ++ chunkEnv ++
    jsOr data.environmentName "Unknown" ++ chunkCreator ++
    jsOr data.creatorName "Unknown" ++ chunkTime ++ now ++ chunkEnd

/-- The `app.post("/webhook", ...)` handler of src/index.js (lines 84–113).
There is no payload validation: an undefined `req.body` makes `data.type`
throw a TypeError which the surrounding `try`/`catch` turns into a 500;
a body without `type` simply skips the DEPLOY branch and is acknowledged. -/
def webhookPost (tg : Telegram) (chatId now : String) (body : Option Payload) :
    Response × List SendCall :=
  match body with
  | none => (⟨500, .internalError⟩, [])
  | some data =>
    if data.type = some "DEPLOY" then
      let message := deployMessage now data
      let buttonUrl :=
        if truthy data.projectId then
          "https://railway.app/project/" ++ data.projectId.getD "" ++ "/deployments"
        else "https://railway.app"
      match sendMessage tg chatId message (some "View Project") (some buttonUrl) with
      | .ok _ => (⟨200, .success⟩, [⟨message, some "View Project", some buttonUrl⟩])
      | .error _ => (⟨500, .internalError⟩, [⟨message, some "View Project", some buttonUrl⟩])
    else
      (⟨200, .success⟩, [])

/-- Route dispatch of src/index.js in registration order: `POST /webhook`,
`GET /health`, `GET /`, then the catch-all 404 handler.  This file has no
`GET /webhook` route.  Express `app.get` also serves HEAD requests. -/
def handle (tg : Telegram) (chatId now : String) (method path : String)
    (body : Option Payload) : Response × List SendCall :=
  if method = "POST" ∧ path = "/webhook" then
    webhookPost tg chatId now body
  else if (method = "GET" ∨ method = "HEAD") ∧ path = "/health" then
    (⟨200, .health⟩, [])
  else if (method = "GET" ∨ method = "HEAD") ∧ path = "/" then
    (⟨200, .root⟩, [])
  else
    (⟨404, .endpointNotFound⟩, [])

end IndexJs

/-- A transport whose outbound call always succeeds. -/
def tgOk : Telegram := fun _ _ _ => .ok ()

/-- A transport whose outbound call always fails (simulated delivery
failure). -/
def tgFail : Telegram := fun _ _ _ => .error "network error"

/-- A body with every field absent (what body-parser delivers for an absent
or non-JSON request body). -/
def emptyPayload : Payload := ⟨none, none, none, none, none, none, none⟩

/-- The example payload of the spec: a fully populated DEPLOY event. -/
def deployFull : Payload :=
  ⟨some "DEPLOY", some "SUCCESS", some "api", some "p1", some "prod",
   some "alice", some "d1"⟩

/-- A DEPLOY event with every optional field absent. -/
def deployEmpty : Payload :=
  ⟨some "DEPLOY", none, none, none, none, none, none⟩

/-- A DEPLOY event whose `project.id` is present but the empty string. -/
def deployEmptyId : Payload :=
  ⟨some "DEPLOY", some "SUCCESS", some "api", some "", some "prod",
   some "alice", some "d1"⟩

/-- A DEPLOY event whose status string is in neither emoji table. -/
def deployUnknownStatus : Payload :=
  ⟨some "DEPLOY", some "NOT_A_STATUS", none, none, none, none, none⟩

/-- A SERVICE event. -/
def servicePayload : Payload :=
  ⟨some "SERVICE", some "SUCCESS", none, none, none, none, none⟩

/-- A payload whose `type` field is present but the empty string (falsy in
JavaScript). -/
def emptyTypePayload : Payload :=
  ⟨some "", some "SUCCESS", none, none, none, none, none⟩
theorem truthy_deploy : truthy (some "DEPLOY") = true := rfl

theorem sendMessage_ok (tg : Telegram) (chatId message : String)
    (buttonText buttonUrl : Option String) :
    sendMessage tg chatId message buttonText buttonUrl = .ok () := by
  simp only [sendMessage]
  split <;> rfl

/-- C10: for every message, button label and button URL, and every behaviour
of the outbound transport, `sendMessage` completes normally — the error of a
failing transport is caught inside the function and never propagates. -/
theorem c10_confirmed (tg : Telegram) (chatId message : String)
    (buttonText buttonUrl : Option String) :
    sendMessage tg chatId message buttonText buttonUrl = .ok () :=
  sendMessage_ok tg chatId message buttonText buttonUrl

/-- C5: for every DEPLOY payload and every behaviour of the outbound
transport (including one that always fails), both servers respond
200 success — a delivery failure never changes the HTTP response. -/
theorem c5_confirmed (tg : Telegram) (chatId now : String) (data : Payload)
    (h : data.type = some "DEPLOY") :
    (Part000.webhookPost tg chatId now (some data)).1 = ⟨200, .success⟩ ∧
    (IndexJs.webhookPost tg chatId now (some data)).1 = ⟨200, .success⟩ := by
  constructor
  · simp [Part000.webhookPost, h, truthy_deploy, sendMessage_ok]
  · simp [IndexJs.webhookPost, h, sendMessage_ok]

/-- C5 witness: a concrete DEPLOY payload sent through the always-failing
transport still gets 200 from both servers. -/
theorem c5_witness :
    (Part000.webhookPost tgFail "chat" "t0" (some deployFull)).1 = ⟨200, .success⟩ ∧
    (IndexJs.webhookPost tgFail "chat" "t0" (some deployFull)).1 = ⟨200, .success⟩ :=
  c5_confirmed tgFail "chat" "t0" deployFull rfl

/-- C1 counterexample: the claim says a missing `type` always yields HTTP 400,
but the src/index.js handler acknowledges a body without `type` with HTTP 200. -/
theorem c1_counterexample :
    (IndexJs.webhookPost tgOk "chat" "t0" (some emptyPayload)).1 = ⟨200, .success⟩ ∧
    Response.mk 200 .success ≠ Response.mk 400 .invalidPayload :=
  ⟨rfl, by decide⟩

/-- C1 amended: only the part_000 server validates the payload.  There, an
undefined body or a falsy `type` field yields 400 with no delivery attempt and
no formatting.  The src/index.js handler has no validation: a body without
`type` yields 200 with no delivery attempt, and an undefined body makes
`data.type` throw, which its catch block turns into a 500. -/
theorem c1_amended (tg : Telegram) (chatId now : String) (data : Payload) :
    Part000.webhookPost tg chatId now none = (⟨400, .invalidPayload⟩, []) ∧
    (truthy data.type = false →
      Part000.webhookPost tg chatId now (some data) = (⟨400, .invalidPayload⟩, [])) ∧
    (data.type = none →
      IndexJs.webhookPost tg chatId now (some data) = (⟨200, .success⟩, [])) ∧
    IndexJs.webhookPost tg chatId now none = (⟨500, .internalError⟩, []) := by
  refine ⟨rfl, fun h => ?_, fun h => ?_, rfl⟩
  · simp [Part000.webhookPost, h]
  · simp [IndexJs.webhookPost, h]

/-- C1 witness: the amended theorem applied to a body with every field absent. -/
theorem c1_witness :
    Part000.webhookPost tgOk "chat" "t0" (some emptyPayload) = (⟨400, .invalidPayload⟩, []) ∧
    IndexJs.webhookPost tgOk "chat" "t0" (some emptyPayload) = (⟨200, .success⟩, []) :=
  ⟨(c1_amended tgOk "chat" "t0" emptyPayload).2.1 rfl,
   (c1_amended tgOk "chat" "t0" emptyPayload).2.2.1 rfl⟩

/-- C4 counterexample: the claim says every non-POST request to the webhook
path gets 405, but a PUT to /webhook falls through to the part_000 catch-all
404 handler, and src/index.js has no 405 route at all (GET /webhook is 404). -/
theorem c4_counterexample :
    Part000.handle tgOk "chat" "t0" "PUT" "/webhook" none = (⟨404, .endpointNotFound⟩, []) ∧
    IndexJs.handle tgOk "chat" "t0" "GET" "/webhook" none = (⟨404, .endpointNotFound⟩, []) ∧
    (404 : Nat) ≠ 405 :=
  ⟨by decide, by decide, by decide⟩

/-- C4 amended: on the part_000 server only GET (and HEAD, which Express
serves with the same route) on /webhook gets the explicit 405; every other
non-POST method gets 404 from the catch-all handler.  On the src/index.js
server every non-POST request to /webhook gets 404. -/
theorem c4_amended (tg : Telegram) (chatId now method : String) (body : Option Payload) :
    ((method = "GET" ∨ method = "HEAD") →
      Part000.handle tg chatId now method "/webhook" body = (⟨405, .methodNotAllowed⟩, [])) ∧
    (method ≠ "POST" → method ≠ "GET" → method ≠ "HEAD" →
      Part000.handle tg chatId now method "/webhook" body = (⟨404, .endpointNotFound⟩, [])) ∧
    (method ≠ "POST" →
      IndexJs.handle tg chatId now method "/webhook" body = (⟨404, .endpointNotFound⟩, [])) := by
  refine ⟨fun h => ?_, fun h1 h2 h3 => ?_, fun h1 => ?_⟩
  · rcases h with rfl | rfl <;> simp [Part000.handle]
  · simp [Part000.handle, h1, h2, h3]
  · simp [IndexJs.handle, h1]

/-- C4 witness: the amended theorem at GET and DELETE on both servers. -/
theorem c4_witness :
    Part000.handle tgOk "chat" "t0" "GET" "/webhook" none = (⟨405, .methodNotAllowed⟩, []) ∧
    Part000.handle tgOk "chat" "t0" "DELETE" "/webhook" none = (⟨404, .endpointNotFound⟩, []) ∧
    IndexJs.handle tgOk "chat" "t0" "DELETE" "/webhook" none = (⟨404, .endpointNotFound⟩, []) :=
  ⟨(c4_amended tgOk "chat" "t0" "GET" none).1 (Or.inl rfl),
   (c4_amended tgOk "chat" "t0" "DELETE" none).2.1 (by decide) (by decide) (by decide),
   (c4_amended tgOk "chat" "t0" "DELETE" none).2.2 (by decide)⟩

/-- C7 counterexample: the claim says a present `project.id` yields the
project deployments URL, but a present-and-empty id is falsy in JavaScript,
so both servers fall back to the landing URL. -/
theorem c7_counterexample :
    deployEmptyId.projectId = some "" ∧
    (Part000.webhookPost tgOk "chat" "t0" (some deployEmptyId)).2.map SendCall.buttonUrl =
      [some "https://railway.app"] ∧
    (IndexJs.webhookPost tgOk "chat" "t0" (some deployEmptyId)).2.map SendCall.buttonUrl =
      [some "https://railway.app"] ∧
    ("https://railway.app" : String) ≠ "https://railway.app/project//deployments" :=
  ⟨rfl, by decide, by decide, by decide⟩

/-- C7 amended: for every DEPLOY payload, a truthy (present and nonempty)
`project.id` yields `https://railway.app/project/<id>/deployments` as the
button URL of the single delivery call; an absent or empty id yields the
landing URL `https://railway.app`.  The same holds on both servers. -/
theorem c7_amended (tg : Telegram) (chatId now : String) (data : Payload) (pid : String) :
    (data.type = some "DEPLOY" → data.projectId = some pid → pid.isEmpty = false →
      (Part000.webhookPost tg chatId now (some data)).2.map SendCall.buttonUrl =
        [some ("https://railway.app/project/" ++ pid ++ "/deployments")] ∧
      (IndexJs.webhookPost tg chatId now (some data)).2.map SendCall.buttonUrl =
        [some ("https://railway.app/project/" ++ pid ++ "/deployments")]) ∧
    (data.type = some "DEPLOY" → truthy data.projectId = false →
      (Part000.webhookPost tg chatId now (some data)).2.map SendCall.buttonUrl =
        [some "https://railway.app"] ∧
      (IndexJs.webhookPost tg chatId now (some data)).2.map SendCall.buttonUrl =
        [some "https://railway.app"]) := by
  constructor
  · intro hType hPid hEmpty
    have htp : truthy (some pid) = true := by simp [truthy, hEmpty]
    constructor
    · simp [Part000.webhookPost, hType, truthy_deploy, htp, hPid, sendMessage_ok]
    · simp [IndexJs.webhookPost, hType, htp, hPid, sendMessage_ok]
  · intro hType hBad
    constructor
    · simp [Part000.webhookPost, hType, truthy_deploy, hBad, sendMessage_ok]
    · simp [IndexJs.webhookPost, hType, hBad, sendMessage_ok]

/-- C7 witness: the amended theorem at a populated payload and at one with no
project id. -/
theorem c7_witness :
    (Part000.webhookPost tgOk "chat" "t0" (some deployFull)).2.map SendCall.buttonUrl =
      [some ("https://railway.app/project/" ++ "p1" ++ "/deployments")] ∧
    (Part000.webhookPost tgOk "chat" "t0" (some deployEmpty)).2.map SendCall.buttonUrl =
      [some "https://railway.app"] :=
  ⟨((c7_amended tgOk "chat" "t0" deployFull "p1").1 rfl rfl (by decide)).1,
   ((c7_amended tgOk "chat" "t0" deployEmpty "x").2 rfl (by decide)).1⟩

/-- C8 counterexample: the claim says every non-DEPLOY tag is acknowledged
with 200, but a present-and-empty `type` is falsy in JavaScript, so the
part_000 server rejects it with 400. -/
theorem c8_counterexample :
    emptyTypePayload.type = some "" ∧
    Part000.webhookPost tgOk "chat" "t0" (some emptyTypePayload) = (⟨400, .invalidPayload⟩, []) ∧
    Response.mk 400 .invalidPayload ≠ Response.mk 200 .success :=
  ⟨rfl, by decide, by decide⟩

/-- C8 amended: a payload whose `type` is truthy (present and nonempty) and
not DEPLOY — SERVICE included — gets 200 success with no delivery attempt
from both servers.  A present-but-empty `type` gets 400 from part_000 and
200 from src/index.js, again with no delivery attempt. -/
theorem c8_amended (tg : Telegram) (chatId now : String) (data : Payload) :
    (truthy data.type = true → data.type ≠ some "DEPLOY" →
      Part000.webhookPost tg chatId now (some data) = (⟨200, .success⟩, []) ∧
      IndexJs.webhookPost tg chatId now (some data) = (⟨200, .success⟩, [])) ∧
    (data.type = some "" →
      Part000.webhookPost tg chatId now (some data) = (⟨400, .invalidPayload⟩, []) ∧
      IndexJs.webhookPost tg chatId now (some data) = (⟨200, .success⟩, [])) := by
  refine ⟨fun h1 h2 => ⟨?_, ?_⟩, fun h => ⟨?_, ?_⟩⟩
  · simp [Part000.webhookPost, h1, h2]
  · simp [IndexJs.webhookPost, h2]
  · have hf : truthy data.type = false := by rw [h]; rfl
    simp [Part000.webhookPost, hf]
  · simp [IndexJs.webhookPost, h]

/-- C8 witness: the amended theorem at a SERVICE payload and at an
empty-`type` payload. -/
theorem c8_witness :
    Part000.webhookPost tgOk "chat" "t0" (some servicePayload) = (⟨200, .success⟩, []) ∧
    IndexJs.webhookPost tgOk "chat" "t0" (some emptyTypePayload) = (⟨200, .success⟩, []) :=
  ⟨((c8_amended tgOk "chat" "t0" servicePayload).1 rfl (by decide)).1,
   ((c8_amended tgOk "chat" "t0" emptyTypePayload).2 rfl).2⟩

/-- C9 counterexample: the two webhook handlers are not extensionally equal —
a body without `type` gets 400 from part_000 but 200 from src/index.js, and
even on the example DEPLOY payload of the spec the two delivered message texts
differ (part_000 has a Deployment ID line; the index.js emoji are different
byte sequences). -/
theorem c9_counterexample :
    (Part000.webhookPost tgOk "chat" "t0" (some emptyPayload)).1 ≠
      (IndexJs.webhookPost tgOk "chat" "t0" (some emptyPayload)).1 ∧
    (Part000.webhookPost tgOk "chat" "t0" (some deployFull)).2.map SendCall.message ≠
      (IndexJs.webhookPost tgOk "chat" "t0" (some deployFull)).2.map SendCall.message :=
  ⟨by decide, by decide⟩

/-- C9 amended: restricted to bodies with a truthy `type`, the two handlers
do agree on the HTTP response, on whether a delivery call is made, and on the
button label and button URL of that call; the delivered message texts differ. -/
theorem c9_amended (tg : Telegram) (chatId now : String) (data : Payload)
    (h : truthy data.type = true) :
    (Part000.webhookPost tg chatId now (some data)).1 =
      (IndexJs.webhookPost tg chatId now (some data)).1 ∧
    (Part000.webhookPost tg chatId now (some data)).2.map SendCall.buttonText =
      (IndexJs.webhookPost tg chatId now (some data)).2.map SendCall.buttonText ∧
    (Part000.webhookPost tg chatId now (some data)).2.map SendCall.buttonUrl =
      (IndexJs.webhookPost tg chatId now (some data)).2.map SendCall.buttonUrl ∧
    ((Part000.webhookPost tg chatId now (some data)).2 = [] ↔
      (IndexJs.webhookPost tg chatId now (some data)).2 = []) := by
  by_cases hD : data.type = some "DEPLOY" <;>
    simp [Part000.webhookPost, IndexJs.webhookPost, h, hD, truthy_deploy, sendMessage_ok]

/-- C9 witness: the amended theorem at a SERVICE payload. -/
theorem c9_witness :
    (Part000.webhookPost tgOk "chat" "t0" (some servicePayload)).1 =
      (IndexJs.webhookPost tgOk "chat" "t0" (some servicePayload)).1 :=
  (c9_amended tgOk "chat" "t0" servicePayload rfl).1
/-- C6: on both servers, a status string that is a key of the table `statusEmojis` of that server makes the rendered message contain the mapped glyph, and
any other (or absent) status makes it contain the default glyph of that server.
The lookup is total by construction. -/
theorem c6_confirmed (now : String) (data : Payload) (glyph : String) :
    (data.status.bind (Part000.statusEmojis.lookup ·) = some glyph →
      strContains (Part000.formatDeploymentMessage now data) glyph) ∧
    (data.status.bind (Part000.statusEmojis.lookup ·) = none →
      strContains (Part000.formatDeploymentMessage now data) Part000.defaultEmoji) ∧
    (data.status.bind (IndexJs.statusEmojis.lookup ·) = some glyph →
      strContains (IndexJs.deployMessage now data) glyph) ∧
    (data.status.bind (IndexJs.statusEmojis.lookup ·) = none →
      strContains (IndexJs.deployMessage now data) IndexJs.defaultEmoji) := by
  refine ⟨fun h => ?_, fun h => ?_, fun h => ?_, fun h => ?_⟩
  · have hg : glyph.isEmpty = false := by
      cases hs : data.status with
      | none => rw [hs] at h; simp at h
      | some s =>
        rw [hs] at h
        simp only [Option.some_bind] at h
        exact lookup_isEmpty_eq_false s Part000.statusEmojis (by decide) glyph h
    have he : Part000.emojiOf data = glyph := by
      unfold Part000.emojiOf
      rw [h]
      simp [jsOr, hg]
    refine strContains_of_eq _
      (Part000.chunkTitle ++ Part000.projectNameOf data ++ Part000.chunkAfterProject) _
      (Part000.chunkStatusLabel ++ jsStr data.status ++ Part000.chunkEnv ++
       Part000.environmentOf data ++ Part000.chunkCreator ++ Part000.creatorOf data ++
       Part000.chunkDeployId ++ Part000.deploymentIdOf data ++ Part000.chunkTime ++
       now ++ Part000.chunkEnd) ?_
    unfold Part000.formatDeploymentMessage
    rw [he]
    simp [String.append_assoc]
  · have he : Part000.emojiOf data = Part000.defaultEmoji := by
      unfold Part000.emojiOf
      rw [h]
      rfl
    refine strContains_of_eq _
      (Part000.chunkTitle ++ Part000.projectNameOf data ++ Part000.chunkAfterProject) _
      (Part000.chunkStatusLabel ++ jsStr data.status ++ Part000.chunkEnv ++
       Part000.environmentOf data ++ Part000.chunkCreator ++ Part000.creatorOf data ++
       Part000.chunkDeployId ++ Part000.deploymentIdOf data ++ Part000.chunkTime ++
       now ++ Part000.chunkEnd) ?_
    unfold Part000.formatDeploymentMessage
    rw [he]
    simp [String.append_assoc]
  · have hg : glyph.isEmpty = false := by
      cases hs : data.status with
      | none => rw [hs] at h; simp at h
      | some s =>
        rw [hs] at h
        simp only [Option.some_bind] at h
        exact lookup_isEmpty_eq_false s IndexJs.statusEmojis (by decide) glyph h
    have he : IndexJs.emojiOf data = glyph := by
      unfold IndexJs.emojiOf
      rw [h]
      simp [jsOr, hg]
    refine strContains_of_eq _
      (IndexJs.chunkTitle ++ jsOr data.projectName "Unknown" ++ IndexJs.chunkAfterProject) _
      (IndexJs.chunkStatusLabel ++ jsStr data.status ++ IndexJs.chunkEnv ++
       jsOr data.environmentName "Unknown" ++ IndexJs.chunkCreator ++
       jsOr data.creatorName "Unknown" ++ IndexJs.chunkTime ++ now ++ IndexJs.chunkEnd) ?_
    unfold IndexJs.deployMessage
    rw [he]
    simp [String.append_assoc]
  · have he : IndexJs.emojiOf data = IndexJs.defaultEmoji := by
      unfold IndexJs.emojiOf
      rw [h]
      rfl
    refine strContains_of_eq _
      (IndexJs.chunkTitle ++ jsOr data.projectName "Unknown" ++ IndexJs.chunkAfterProject) _
      (IndexJs.chunkStatusLabel ++ jsStr data.status ++ IndexJs.chunkEnv ++
       jsOr data.environmentName "Unknown" ++ IndexJs.chunkCreator ++
       jsOr data.creatorName "Unknown" ++ IndexJs.chunkTime ++ now ++ IndexJs.chunkEnd) ?_
    unfold IndexJs.deployMessage
    rw [he]
    simp [String.append_assoc]

/-- C6 witness: the theorem at the example payload of the spec (status SUCCESS,
mapped in both tables) and at a payload whose status is in neither table. -/
theorem c6_witness :
    strContains (Part000.formatDeploymentMessage "t0" deployFull) "✅" ∧
    strContains (Part000.formatDeploymentMessage "t0" deployUnknownStatus)
      Part000.defaultEmoji ∧
    strContains (IndexJs.deployMessage "t0" deployFull)
      ((IndexJs.statusEmojis.lookup "SUCCESS").getD "") ∧
    strContains (IndexJs.deployMessage "t0" deployUnknownStatus) IndexJs.defaultEmoji :=
  ⟨(c6_confirmed "t0" deployFull "✅").1 (by decide),
   (c6_confirmed "t0" deployUnknownStatus "").2.1 (by decide),
   (c6_confirmed "t0" deployFull ((IndexJs.statusEmojis.lookup "SUCCESS").getD "")).2.2.1
     (by decide),
   (c6_confirmed "t0" deployUnknownStatus "").2.2.2 (by decide)⟩
/-- C2 counterexample: in `formatDeploymentMessage` of part_000, an absent
status renders as "undefined" (not "Unknown"), and an absent project name
renders as "Unknown Project" (not the bare placeholder "Unknown"). -/
theorem c2_counterexample :
    strContains (Part000.formatDeploymentMessage "t0" deployEmpty)
      "<b>Status:</b> <code>undefined</code>" ∧
    ¬ strContains (Part000.formatDeploymentMessage "t0" deployEmpty)
      "<b>Status:</b> <code>Unknown</code>" ∧
    strContains (Part000.formatDeploymentMessage "t0" deployEmpty)
      "<b>Project:</b> <code>Unknown Project</code>" ∧
    ¬ strContains (Part000.formatDeploymentMessage "t0" deployEmpty)
      "<b>Project:</b> <code>Unknown</code>" :=
  ⟨by decide, by decide, by decide, by decide⟩

/-- C2 amended: formatting is total (never throws — both message builders are
total functions by construction), and each absent optional value renders with
its own default: in part_000 the Project, Environment and Creator defaults are
"Unknown Project", "Unknown Environment" and "Unknown Creator" (only the
Deployment ID default is the bare "Unknown"), while in src/index.js all three
defaults are "Unknown" and there is no Deployment ID line; in both files an
absent `status` interpolates as the literal text "undefined". -/
theorem c2_amended (now : String) (data : Payload) :
    (data.projectName = none →
      strContains (Part000.formatDeploymentMessage now data)
        "<b>Project:</b> <code>Unknown Project</code>") ∧
    (data.environmentName = none →
      strContains (Part000.formatDeploymentMessage now data)
        "<b>Environment:</b> <code>Unknown Environment</code>") ∧
    (data.creatorName = none →
      strContains (Part000.formatDeploymentMessage now data)
        "<b>Creator:</b> <code>Unknown Creator</code>") ∧
    (data.deploymentId = none →
      strContains (Part000.formatDeploymentMessage now data)
        "<b>Deployment ID:</b> <code>Unknown</code>") ∧
    (data.status = none →
      strContains (Part000.formatDeploymentMessage now data)
        "<b>Status:</b> <code>undefined</code>") ∧
    (data.projectName = none →
      strContains (IndexJs.deployMessage now data)
        "<b>Project:</b> <code>Unknown</code>") ∧
    (data.environmentName = none →
      strContains (IndexJs.deployMessage now data)
        "<b>Environment:</b> <code>Unknown</code>") ∧
    (data.creatorName = none →
      strContains (IndexJs.deployMessage now data)
        "<b>Creator:</b> <code>Unknown</code>") ∧
    (data.status = none →
      strContains (IndexJs.deployMessage now data)
        "<b>Status:</b> <code>undefined</code>") := by
  refine ⟨fun h => ?_, fun h => ?_, fun h => ?_, fun h => ?_, fun h => ?_,
    fun h => ?_, fun h => ?_, fun h => ?_, fun h => ?_⟩
  · have hv : Part000.projectNameOf data = "Unknown Project" := by
      unfold Part000.projectNameOf; rw [h]; rfl
    refine strContains_of_eq _ (Part000.titleLine ++ "\n\n") _
      ("\n" ++ Part000.emojiOf data ++ Part000.chunkStatusLabel ++ jsStr data.status ++
       Part000.chunkEnv ++ Part000.environmentOf data ++ Part000.chunkCreator ++
       Part000.creatorOf data ++ Part000.chunkDeployId ++ Part000.deploymentIdOf data ++
       Part000.chunkTime ++ now ++ Part000.chunkEnd) ?_
    unfold Part000.formatDeploymentMessage
    rw [hv,
      (by decide : Part000.chunkTitle =
        (Part000.titleLine ++ "\n\n") ++ "<b>Project:</b> <code>"),
      (by decide : Part000.chunkAfterProject = "</code>" ++ "\n"),
      (by decide : ("<b>Project:</b> <code>Unknown Project</code>" : String) =
        "<b>Project:</b> <code>" ++ ("Unknown Project" ++ "</code>"))]
    simp only [String.append_assoc]
  · have hv : Part000.environmentOf data = "Unknown Environment" := by
      unfold Part000.environmentOf; rw [h]; rfl
    refine strContains_of_eq _
      (Part000.chunkTitle ++ Part000.projectNameOf data ++ Part000.chunkAfterProject ++
       Part000.emojiOf data ++ Part000.chunkStatusLabel ++ jsStr data.status ++
       ("</code>" ++ Part000.lineHeadEnvironment)) _
      (Part000.lineHeadCreator ++ "<b>Creator:</b> <code>" ++ Part000.creatorOf data ++
       Part000.chunkDeployId ++ Part000.deploymentIdOf data ++ Part000.chunkTime ++
       now ++ Part000.chunkEnd) ?_
    unfold Part000.formatDeploymentMessage
    rw [hv,
      (by decide : Part000.chunkEnv =
        ("</code>" ++ Part000.lineHeadEnvironment) ++ "<b>Environment:</b> <code>"),
      (by decide : Part000.chunkCreator =
        "</code>" ++ (Part000.lineHeadCreator ++ "<b>Creator:</b> <code>")),
      (by decide : ("<b>Environment:</b> <code>Unknown Environment</code>" : String) =
        "<b>Environment:</b> <code>" ++ ("Unknown Environment" ++ "</code>"))]
    simp only [String.append_assoc]
  · have hv : Part000.creatorOf data = "Unknown Creator" := by
      unfold Part000.creatorOf; rw [h]; rfl
    refine strContains_of_eq _
      (Part000.chunkTitle ++ Part000.projectNameOf data ++ Part000.chunkAfterProject ++
       Part000.emojiOf data ++ Part000.chunkStatusLabel ++ jsStr data.status ++
       Part000.chunkEnv ++ Part000.environmentOf data ++
       ("</code>" ++ Part000.lineHeadCreator)) _
      (Part000.lineHeadDeployId ++ "<b>Deployment ID:</b> <code>" ++
       Part000.deploymentIdOf data ++ Part000.chunkTime ++ now ++ Part000.chunkEnd) ?_
    unfold Part000.formatDeploymentMessage
    rw [hv,
      (by decide : Part000.chunkCreator =
        ("</code>" ++ Part000.lineHeadCreator) ++ "<b>Creator:</b> <code>"),
      (by decide : Part000.chunkDeployId =
        "</code>" ++ (Part000.lineHeadDeployId ++ "<b>Deployment ID:</b> <code>")),
      (by decide : ("<b>Creator:</b> <code>Unknown Creator</code>" : String) =
        "<b>Creator:</b> <code>" ++ ("Unknown Creator" ++ "</code>"))]
    simp only [String.append_assoc]
  · have hv : Part000.deploymentIdOf data = "Unknown" := by
      unfold Part000.deploymentIdOf; rw [h]; rfl
    refine strContains_of_eq _
      (Part000.chunkTitle ++ Part000.projectNameOf data ++ Part000.chunkAfterProject ++
       Part000.emojiOf data ++ Part000.chunkStatusLabel ++ jsStr data.status ++
       Part000.chunkEnv ++ Part000.environmentOf data ++ Part000.chunkCreator ++
       Part000.creatorOf data ++ ("</code>" ++ Part000.lineHeadDeployId)) _
      (Part000.lineHeadTime ++ "<b>Time:</b> <code>" ++ now ++ Part000.chunkEnd) ?_
    unfold Part000.formatDeploymentMessage
    rw [hv,
      (by decide : Part000.chunkDeployId =
        ("</code>" ++ Part000.lineHeadDeployId) ++ "<b>Deployment ID:</b> <code>"),
      (by decide : Part000.chunkTime =
        "</code>" ++ (Part000.lineHeadTime ++ "<b>Time:</b> <code>")),
      (by decide : ("<b>Deployment ID:</b> <code>Unknown</code>" : String) =
        "<b>Deployment ID:</b> <code>" ++ ("Unknown" ++ "</code>"))]
    simp only [String.append_assoc]
  · have hv : jsStr data.status = "undefined" := by rw [h]; rfl
    refine strContains_of_eq _
      (Part000.chunkTitle ++ Part000.projectNameOf data ++ Part000.chunkAfterProject ++
       Part000.emojiOf data ++ " ") _
      (Part000.lineHeadEnvironment ++ "<b>Environment:</b> <code>" ++
       Part000.environmentOf data ++ Part000.chunkCreator ++ Part000.creatorOf data ++
       Part000.chunkDeployId ++ Part000.deploymentIdOf data ++ Part000.chunkTime ++
       now ++ Part000.chunkEnd) ?_
    unfold Part000.formatDeploymentMessage
    rw [hv,
      (by decide : Part000.chunkStatusLabel = " " ++ "<b>Status:</b> <code>"),
      (by decide : Part000.chunkEnv =
        "</code>" ++ (Part000.lineHeadEnvironment ++ "<b>Environment:</b> <code>")),
      (by decide : ("<b>Status:</b> <code>undefined</code>" : String) =
        "<b>Status:</b> <code>" ++ ("undefined" ++ "</code>"))]
    simp only [String.append_assoc]
  · have hv : jsOr data.projectName "Unknown" = "Unknown" := by rw [h]; rfl
    refine strContains_of_eq _ (IndexJs.titleLine ++ "\n\n") _
      ("\n" ++ IndexJs.emojiOf data ++ IndexJs.chunkStatusLabel ++ jsStr data.status ++
       IndexJs.chunkEnv ++ jsOr data.environmentName "Unknown" ++ IndexJs.chunkCreator ++
       jsOr data.creatorName "Unknown" ++ IndexJs.chunkTime ++ now ++
       IndexJs.chunkEnd) ?_
    unfold IndexJs.deployMessage
    rw [hv,
      (by decide : IndexJs.chunkTitle =
        (IndexJs.titleLine ++ "\n\n") ++ "<b>Project:</b> <code>"),
      (by decide : IndexJs.chunkAfterProject = "</code>" ++ "\n"),
      (by decide : ("<b>Project:</b> <code>Unknown</code>" : String) =
        "<b>Project:</b> <code>" ++ ("Unknown" ++ "</code>"))]
    simp only [String.append_assoc]
  · have hv : jsOr data.environmentName "Unknown" = "Unknown" := by rw [h]; rfl
    refine strContains_of_eq _
      (IndexJs.chunkTitle ++ jsOr data.projectName "Unknown" ++
       IndexJs.chunkAfterProject ++ IndexJs.emojiOf data ++ IndexJs.chunkStatusLabel ++
       jsStr data.status ++ ("</code>" ++ IndexJs.lineHeadEnvironment)) _
      (IndexJs.lineHeadCreator ++ "<b>Creator:</b> <code>" ++
       jsOr data.creatorName "Unknown" ++ IndexJs.chunkTime ++ now ++
       IndexJs.chunkEnd) ?_
    unfold IndexJs.deployMessage
    rw [hv,
      (by decide : IndexJs.chunkEnv =
        ("</code>" ++ IndexJs.lineHeadEnvironment) ++ "<b>Environment:</b> <code>"),
      (by decide : IndexJs.chunkCreator =
        "</code>" ++ (IndexJs.lineHeadCreator ++ "<b>Creator:</b> <code>")),
      (by decide : ("<b>Environment:</b> <code>Unknown</code>" : String) =
        "<b>Environment:</b> <code>" ++ ("Unknown" ++ "</code>"))]
    simp only [String.append_assoc]
  · have hv : jsOr data.creatorName "Unknown" = "Unknown" := by rw [h]; rfl
    refine strContains_of_eq _
      (IndexJs.chunkTitle ++ jsOr data.projectName "Unknown" ++
       IndexJs.chunkAfterProject ++ IndexJs.emojiOf data ++ IndexJs.chunkStatusLabel ++
       jsStr data.status ++ IndexJs.chunkEnv ++ jsOr data.environmentName "Unknown" ++
       ("</code>" ++ IndexJs.lineHeadCreator)) _
      (IndexJs.lineHeadTime ++ "<b>Time:</b> <code>" ++ now ++ IndexJs.chunkEnd) ?_
    unfold IndexJs.deployMessage
    rw [hv,
      (by decide : IndexJs.chunkCreator =
        ("</code>" ++ IndexJs.lineHeadCreator) ++ "<b>Creator:</b> <code>"),
      (by decide : IndexJs.chunkTime =
        "</code>" ++ (IndexJs.lineHeadTime ++ "<b>Time:</b> <code>")),
      (by decide : ("<b>Creator:</b> <code>Unknown</code>" : String) =
        "<b>Creator:</b> <code>" ++ ("Unknown" ++ "</code>"))]
    simp only [String.append_assoc]
  · have hv : jsStr data.status = "undefined" := by rw [h]; rfl
    refine strContains_of_eq _
      (IndexJs.chunkTitle ++ jsOr data.projectName "Unknown" ++
       IndexJs.chunkAfterProject ++ IndexJs.emojiOf data ++ " ") _
      (IndexJs.lineHeadEnvironment ++ "<b>Environment:</b> <code>" ++
       jsOr data.environmentName "Unknown" ++ IndexJs.chunkCreator ++
       jsOr data.creatorName "Unknown" ++ IndexJs.chunkTime ++ now ++
       IndexJs.chunkEnd) ?_
    unfold IndexJs.deployMessage
    rw [hv,
      (by decide : IndexJs.chunkStatusLabel = " " ++ "<b>Status:</b> <code>"),
      (by decide : IndexJs.chunkEnv =
        "</code>" ++ (IndexJs.lineHeadEnvironment ++ "<b>Environment:</b> <code>")),
      (by decide : ("<b>Status:</b> <code>undefined</code>" : String) =
        "<b>Status:</b> <code>" ++ ("undefined" ++ "</code>"))]
    simp only [String.append_assoc]

/-- C2 witness: the amended theorem at a DEPLOY payload with every optional
field absent. -/
theorem c2_witness :
    strContains (Part000.formatDeploymentMessage "t0" deployEmpty)
      "<b>Deployment ID:</b> <code>Unknown</code>" ∧
    strContains (IndexJs.deployMessage "t0" deployEmpty)
      "<b>Project:</b> <code>Unknown</code>" :=
  ⟨(c2_amended "t0" deployEmpty).2.2.2.1 rfl,
   (c2_amended "t0" deployEmpty).2.2.2.2.2.1 rfl⟩
/-- C3 counterexample: the line list of the claim includes a Deployment ID line,
but the message built by the src/index.js handler has none (the part_000 message has one). -/
theorem c3_counterexample :
    strContains (Part000.formatDeploymentMessage "t0" deployFull) "<b>Deployment ID:</b>" ∧
    ¬ strContains (IndexJs.deployMessage "t0" deployFull) "Deployment ID" :=
  ⟨by decide, by decide⟩

/-- C3 amended: the part_000 message contains, in order, the title line and
then — each at the start of its own line — the Project, Status, Environment,
Creator, Deployment ID and Time labels; the src/index.js message is the same
except that it has no Deployment ID line. -/
theorem c3_amended (now : String) (data : Payload) :
    chainedInfixes (Part000.formatDeploymentMessage now data)
      [Part000.titleLine, Part000.labelProject, Part000.labelStatus,
       Part000.labelEnvironment, Part000.labelCreator, Part000.labelDeployId,
       Part000.labelTime] ∧
    chainedInfixes (IndexJs.deployMessage now data)
      [IndexJs.titleLine, IndexJs.labelProject, IndexJs.labelStatus,
       IndexJs.labelEnvironment, IndexJs.labelCreator, IndexJs.labelTime] := by
  constructor
  · unfold Part000.formatDeploymentMessage
    rw [(by decide : Part000.chunkTitle =
          Part000.titleLine ++ ("\n" ++ (Part000.labelProject ++ " <code>"))),
      (by decide : Part000.chunkStatusLabel = Part000.labelStatus ++ " <code>"),
      (by decide : Part000.chunkEnv =
        "</code>" ++ (Part000.labelEnvironment ++ " <code>")),
      (by decide : Part000.chunkCreator =
        "</code>" ++ (Part000.labelCreator ++ " <code>")),
      (by decide : Part000.chunkDeployId =
        "</code>" ++ (Part000.labelDeployId ++ " <code>")),
      (by decide : Part000.chunkTime =
        "</code>" ++ (Part000.labelTime ++ " <code>"))]
    simp only [String.append_assoc]
    repeat
      first
      | exact chainedInfixes_nil _
      | apply chainedInfixes_here
      | apply chainedInfixes_skip
  · unfold IndexJs.deployMessage
    rw [(by decide : IndexJs.chunkTitle =
          IndexJs.titleLine ++ ("\n" ++ (IndexJs.labelProject ++ " <code>"))),
      (by decide : IndexJs.chunkStatusLabel = IndexJs.labelStatus ++ " <code>"),
      (by decide : IndexJs.chunkEnv =
        "</code>" ++ (IndexJs.labelEnvironment ++ " <code>")),
      (by decide : IndexJs.chunkCreator =
        "</code>" ++ (IndexJs.labelCreator ++ " <code>")),
      (by decide : IndexJs.chunkTime =
        "</code>" ++ (IndexJs.labelTime ++ " <code>"))]
    simp only [String.append_assoc]
    repeat
      first
      | exact chainedInfixes_nil _
      | apply chainedInfixes_here
      | apply chainedInfixes_skip
